import Mathlib

/-!
Verification of the `pylibjtag` wrapper (`jtagcore.py`) of the
jtag-boundary-scanner repository.

The Python file is a thin ctypes wrapper around the native JTAG core
library.  The wrapper's own control flow (argument dispatch, return-code
checking, sequencing of native calls, dictionary building) is embedded
faithfully below.  The native library itself is not part of the given
sources; where its behaviour decides a claim it is modelled from the
specification, and every such definition carries a doc comment starting
with `Modelled from the spec:`.

Conventions of the embedding:
* Python exceptions become `Except PyError`.
* Every wrapper operation also returns the list of native-library calls it
  issued (`List LibCall`), in order, so that sequencing claims can be
  stated, and the (modelled) engine state after the operation.
* Python dynamic values relevant to the wrapper's `==` dispatch are
  embedded as `PyVal`, with `pyEq` implementing Python equality on that
  fragment (`True == 1`, `False == 0`).
-/

set_option autoImplicit false

namespace JTAGCore

/-- Fragment of Python values the wrapper compares with `==`:
booleans, integers, strings and `None`. -/
inductive PyVal where
  | pybool : Bool → PyVal
  | pyint : Int → PyVal
  | pystr : String → PyVal
  | pynone : PyVal
  deriving DecidableEq, Repr

/-- Python `==` on the embedded fragment: `True == 1` and `False == 0`
hold, values of otherwise different types compare unequal, `None` equals
only `None`. -/
def pyEq : PyVal → PyVal → Bool
  | .pybool a, .pybool b => a = b
  | .pybool a, .pyint n => n = (if a then 1 else 0)
  | .pyint n, .pybool a => n = (if a then 1 else 0)
  | .pyint m, .pyint n => m = n
  | .pystr s, .pystr t => s = t
  | .pynone, .pynone => true
  | _, _ => false

/-- Python exceptions raised by the wrapper: `IOError` (with its message),
`ValueError`, and `KeyError` (from a failed dictionary lookup, carrying
the missing integer key). -/
inductive PyError where
  | ioError : String → PyError
  | valueError : String → PyError
  | keyError : Int → PyError
  deriving DecidableEq, Repr

/-- The wrapper's `error_codes` dictionary mapping native return codes to
error-kind names; lookup of an absent key is `none` (Python `KeyError`). -/
def error_codes (rv : Int) : Option String :=
  if rv = 0 then some "JTAG_CORE_NO_ERROR"
  else if rv = -1 then some "JTAG_CORE_BAD_PARAMETER"
  else if rv = -2 then some "JTAG_CORE_ACCESS_ERROR"
  else if rv = -3 then some "JTAG_CORE_IO_ERROR"
  else if rv = -4 then some "JTAG_CORE_MEM_ERROR"
  else if rv = -5 then some "JTAG_CORE_NO_PROBE"
  else if rv = -6 then some "JTAG_CORE_NOT_FOUND"
  else if rv = -7 then some "JTAG_CORE_CMD_NOT_FOUND"
  else if rv = -8 then some "JTAG_CORE_INTERNAL_ERROR"
  else if rv = -9 then some "JTAG_CORE_BAD_CMD"
  else if rv = -10 then some "JTAG_CORE_I2C_BUS_NOTFREE"
  else none

/-- Wrapper method `JTAGCore._check_return`: a non-negative value passes silently; a
negative value raises `IOError("Exception: %s" % error_codes[rv])`, where
the dictionary lookup itself raises `KeyError` for a code outside the
table. -/
def check_return (rv : Int) : Except PyError Unit :=
  if 0 ≤ rv then .ok ()
  else
    match error_codes rv with
    | some name => .error (.ioError ("Exception: " ++ name))
    | none => .error (.keyError rv)

/-- Pin register class constant `JTAGCore.INPUT`. -/
def INPUT : Nat := 1

/-- Pin register class constant `JTAGCore.OUTPUT`. -/
def OUTPUT : Nat := 2

/-- Pin register class constant `JTAGCore.TRISTATE`. -/
def TRISTATE : Nat := 4

/-- Pin register class constant `JTAGCore.OE` (same value as `TRISTATE`). -/
def OE : Nat := 4

/-- One call into the native library, with the arguments the wrapper
passed.  Only the calls relevant to the verified operations appear. -/
inductive LibCall where
  | getPinId (device : Int) (name : String)
  | setPinState (device : Int) (pinid : Int) (regtype : Nat) (value : Int)
  | getPinState (device : Int) (pinid : Int) (pintype : Nat)
  | getPinProperties (device : Int) (pinid : Int)
  | pushAndPopChain (mode : Nat)
  | setScanMode (device : Int) (mode : PyVal)
  | loadBsdlFile (path : String) (device : Int)
  | getBsdlId (path : String)
  deriving DecidableEq, Repr

/-- Whether a native call is a boundary-register write
(`jtagcore_set_pin_state`). -/
def LibCall.isSetPin : LibCall → Bool
  | .setPinState _ _ _ _ => true
  | _ => false

/-- The subsequence of register writes in a call trace, as
(register class, value written) pairs, in issue order. -/
def setPinWrites : List LibCall → List (Nat × Int)
  | [] => []
  | .setPinState _ _ t v :: r => (t, v) :: setPinWrites r
  | _ :: r => setPinWrites r

/-- Whether an `Except` result is an error (a raised Python exception). -/
def isErr {α : Type} : Except PyError α → Bool
  | .error _ => true
  | .ok _ => false

/-- Prepend already-issued native calls to the trace of a continuation's
result. -/
def addTrace {α : Type} (t : List LibCall)
    (r : Except PyError α × List LibCall) :
    Except PyError α × List LibCall :=
  (r.1, t ++ r.2)

/-- Modelled from the spec: the state of the native boundary-scan engine,
which is not part of the given sources.  `session_open` records whether a
probe session is open; `pin_table` is the per-device descriptor table
attached from BSDL (pin name and capability bitmask, pin id = position);
`image` is the in-memory boundary-scan register image, indexed by device,
pin id and register class (`INPUT`/`OUTPUT`/`OE`); `transport_in` is the
input vector the chain would deliver on the next scan; `scan_mode` is the
per-device mode word last set; `faults` is an injected schedule of return
codes for the validated mutating native calls (head = next call, absent =
success), abstracting the engine's per-call validation and transport
faults. -/
structure EngineState where
  session_open : Bool
  pin_table : Int → List (String × Nat)
  image : Int → Int → Nat → Int
  transport_in : Int → Int → Int
  scan_mode : Int → PyVal
  bsdl : String → Int × List (String × Nat)
  faults : List Int

/-- Pop the next injected return code (`0`, success, when the schedule is
exhausted). -/
def EngineState.popFault (st : EngineState) : Int × EngineState :=
  (st.faults.headD 0, { st with faults := st.faults.tail })

/-- First position of a pin name in a descriptor pin table. -/
def pin_index (name : String) : List (String × Nat) → Option Nat
  | [] => none
  | p :: r => if p.1 = name then some 0 else (pin_index name r).map (· + 1)

/-- Modelled from the spec: native `jtagcore_get_pin_id`, an accessor over
the attached descriptor: the numeric id of the first pin with the given
name, or `JTAG_CORE_NOT_FOUND` (-6) when the name is unknown. -/
def native_get_pin_id (st : EngineState) (device : Int) (name : String) : Int :=
  match pin_index name (st.pin_table device) with
  | some i => (i : Int)
  | none => -6

/-- Modelled from the spec: native `jtagcore_get_pin_properties`, an
accessor returning the pin's name and capability bitmask for a valid pin
id, and `JTAG_CORE_BAD_PARAMETER` (-1) otherwise. -/
def native_get_pin_properties (st : EngineState) (device : Int) (pinid : Int) :
    Int × String × Nat :=
  if 0 ≤ pinid then
    match (st.pin_table device).get? pinid.toNat with
    | some p => (0, p.1, p.2)
    | none => (-1, "", 0)
  else (-1, "", 0)

/-- Modelled from the spec: native `jtagcore_get_pin_state`, an accessor
reading the in-memory register image for one register class of a valid
pin, `JTAG_CORE_BAD_PARAMETER` (-1) for an invalid pin id. -/
def native_get_pin_state (st : EngineState) (device : Int) (pinid : Int)
    (pintype : Nat) : Int :=
  if 0 ≤ pinid ∧ pinid.toNat < (st.pin_table device).length then
    st.image device pinid pintype
  else -1

/-- Modelled from the spec: native `jtagcore_set_pin_state` writes one bit
of the in-memory register image.  The engine validates each call; that
validation outcome is abstracted by the injected fault schedule: a
negative injected code is returned with the image unchanged, otherwise the
image cell is updated and 0 returned. -/
def native_set_pin_state (st : EngineState) (device : Int) (pinid : Int)
    (regtype : Nat) (value : Int) : Int × EngineState :=
  let r := st.popFault
  if r.1 < 0 then r
  else
    (0, { r.2 with
          image := fun d p t =>
            if d = device ∧ p = pinid ∧ t = regtype then value
            else r.2.image d p t })

/-- Modelled from the spec: native `jtagcore_push_and_pop_chain` (one scan
cycle).  With no open session it fails `JTAG_CORE_NO_PROBE` (-5) leaving
the engine untouched; otherwise a transport fault may be injected, and on
success with capture enabled (mode 0) the returned vector is latched into
the `INPUT` image of every pin. -/
def native_push_and_pop_chain (st : EngineState) (mode : Nat) :
    Int × EngineState :=
  if st.session_open = false then (-5, st)
  else
    let r := st.popFault
    if r.1 < 0 then r
    else if mode = 0 then
      (0, { r.2 with
            image := fun d p t =>
              if t = INPUT then r.2.transport_in d p else r.2.image d p t })
    else (0, r.2)

/-- Modelled from the spec: native `jtagcore_set_scan_mode` stores the
per-device scan mode word; its validation is abstracted by the fault
schedule. -/
def native_set_scan_mode (st : EngineState) (device : Int) (mode : PyVal) :
    Int × EngineState :=
  let r := st.popFault
  if r.1 < 0 then r
  else (0, { r.2 with scan_mode := fun d => if d = device then mode else r.2.scan_mode d })

/-- Modelled from the spec: native `jtagcore_loadbsdlfile` parses the
descriptor source (`bsdl` oracle: parsed device id or a negative error,
plus the pin table) and binds the pin table to the device. -/
def native_loadbsdlfile (st : EngineState) (path : String) (device : Int) :
    Int × EngineState :=
  let r := st.bsdl path
  if r.1 < 0 then (r.1, st)
  else (0, { st with pin_table := fun d => if d = device then r.2 else st.pin_table d })

/-- Modelled from the spec: native `jtagcore_get_bsdl_id` returns the
device id parsed from the descriptor source, or a negative error. -/
def native_get_bsdl_id (st : EngineState) (path : String) : Int :=
  (st.bsdl path).1

/-- Prepend already-issued native calls to the trace of a stateful
continuation's result. -/
def addTraceS {α : Type} (t : List LibCall)
    (r : Except PyError α × EngineState × List LibCall) :
    Except PyError α × EngineState × List LibCall :=
  (r.1, r.2.1, t ++ r.2.2)

/-- A pin argument as the Python wrapper dispatches on it with
`isinstance(pinid, str)`: either a pin name or a numeric pin id. -/
inductive PinArg where
  | byName : String → PinArg
  | byId : Int → PinArg
  deriving DecidableEq, Repr

/-- Wrapper method `JTAGCore.scan`: one `jtagcore_push_and_pop_chain` call with mode 1
(`write_only`) or 0, checked through `_check_return`. -/
def scan (st : EngineState) (write_only : Bool) :
    Except PyError Unit × EngineState × List LibCall :=
  let mode := if write_only then 1 else 0
  let r := native_push_and_pop_chain st mode
  (check_return r.1, r.2, [.pushAndPopChain mode])

/-- Wrapper method `JTAGCore.pin_get_id`: one `jtagcore_get_pin_id` call; the return
value is checked and, when non-negative, returned as the pin id. -/
def pin_get_id (st : EngineState) (device : Int) (pinname : String) :
    Except PyError Int × List LibCall :=
  let rv := native_get_pin_id st device pinname
  (match check_return rv with
   | .error e => .error e
   | .ok _ => .ok rv,
   [.getPinId device pinname])

/-- Wrapper method `JTAGCore.pin_get_properties`: one `jtagcore_get_pin_properties`
call; on success the pin name and the capability names decoded from the
returned bitmask (`input`/`output`/`oe`) are returned. -/
def pin_get_properties (st : EngineState) (device : Int) (pinid : Int) :
    Except PyError (String × List String) × List LibCall :=
  let (rv, name, pt) := native_get_pin_properties st device pinid
  (match check_return rv with
   | .error e => .error e
   | .ok _ =>
       .ok (name,
            (if pt &&& INPUT ≠ 0 then ["input"] else []) ++
            (if pt &&& OUTPUT ≠ 0 then ["output"] else []) ++
            (if pt &&& OE ≠ 0 then ["oe"] else [])),
   [.getPinProperties device pinid])

/-- Body of `JTAGCore.pin_get_state` once a numeric pin id is in hand:
dispatch the `pintype` string to a register class (raising `ValueError`
on anything else, with no native call), then one checked
`jtagcore_get_pin_state` read. -/
def pin_get_state_resolved (st : EngineState) (device : Int) (pinid : Int)
    (pintype : PyVal) : Except PyError Int × List LibCall :=
  let read := fun (t : Nat) =>
    let rv := native_get_pin_state st device pinid t
    (match check_return rv with
     | .error e => (.error e : Except PyError Int)
     | .ok _ => .ok rv,
     [LibCall.getPinState device pinid t])
  if pyEq pintype (.pystr "input") then read INPUT
  else if pyEq pintype (.pystr "output") then read OUTPUT
  else if pyEq pintype (.pystr "oe") then read OE
  else (.error (.valueError "Invalid pintype"), [])

/-- Wrapper method `JTAGCore.pin_get_state`: a pin passed by name is first resolved
through `pin_get_id` (one native call), then the direction string is
dispatched. -/
def pin_get_state (st : EngineState) (device : Int) (pin : PinArg)
    (pintype : PyVal) : Except PyError Int × List LibCall :=
  match pin with
  | .byName s =>
      match pin_get_id st device s with
      | (.error e, tr) => (.error e, tr)
      | (.ok n, tr) => addTrace tr (pin_get_state_resolved st device n pintype)
  | .byId n => pin_get_state_resolved st device n pintype

/-- The shared shape of the three `pin_set_state` branches: write the
`OE` register, check, write the `OUTPUT` register, check, then optionally
scan.  Each branch of the Python code is this block with its two literal
values. -/
def pin_set_writes (st : EngineState) (device : Int) (pinid : Int)
    (oe_val out_val : Int) (scan_now : Bool) :
    Except PyError Unit × EngineState × List LibCall :=
  let r1 := native_set_pin_state st device pinid OE oe_val
  match check_return r1.1 with
  | .error e => (.error e, r1.2, [.setPinState device pinid OE oe_val])
  | .ok _ =>
      let r2 := native_set_pin_state r1.2 device pinid OUTPUT out_val
      match check_return r2.1 with
      | .error e =>
          (.error e, r2.2,
           [.setPinState device pinid OE oe_val,
            .setPinState device pinid OUTPUT out_val])
      | .ok _ =>
          if scan_now then
            addTraceS
              [.setPinState device pinid OE oe_val,
               .setPinState device pinid OUTPUT out_val]
              (scan r2.2 false)
          else
            (.ok (), r2.2,
             [.setPinState device pinid OE oe_val,
              .setPinState device pinid OUTPUT out_val])

/-- The Python condition `state == True or state == 1 or state == "high"`. -/
def is_high_arg (state : PyVal) : Bool :=
  pyEq state (.pybool true) || pyEq state (.pyint 1) || pyEq state (.pystr "high")

/-- The Python condition `state == False or state == 0 or state == "low"`. -/
def is_low_arg (state : PyVal) : Bool :=
  pyEq state (.pybool false) || pyEq state (.pyint 0) || pyEq state (.pystr "low")

/-- The Python condition `state == None or state == -1 or state == "high-z"`. -/
def is_highz_arg (state : PyVal) : Bool :=
  pyEq state .pynone || pyEq state (.pyint (-1)) || pyEq state (.pystr "high-z")

/-- Body of `JTAGCore.pin_set_state` once a numeric pin id is in hand:
the three recognised logical states select the pair of values written to
`OE` then `OUTPUT` (high ↦ 1,1; low ↦ 1,0; high-z ↦ 0,0); anything else
raises `ValueError` with no native call. -/
def pin_set_state_resolved (st : EngineState) (device : Int) (pinid : Int)
    (state : PyVal) (scan_now : Bool) :
    Except PyError Unit × EngineState × List LibCall :=
  if is_high_arg state then pin_set_writes st device pinid 1 1 scan_now
  else if is_low_arg state then pin_set_writes st device pinid 1 0 scan_now
  else if is_highz_arg state then pin_set_writes st device pinid 0 0 scan_now
  else (.error (.valueError "Invalid state"), st, [])

/-- Wrapper method `JTAGCore.pin_set_state`: a pin passed by name is first resolved
through `pin_get_id`, then the logical state dispatches to the two
register writes (and the optional scan). -/
def pin_set_state (st : EngineState) (device : Int) (pin : PinArg)
    (state : PyVal) (scan_now : Bool) :
    Except PyError Unit × EngineState × List LibCall :=
  match pin with
  | .byName s =>
      match pin_get_id st device s with
      | (.error e, tr) => (.error e, st, tr)
      | (.ok n, tr) => addTraceS tr (pin_set_state_resolved st device n state scan_now)
  | .byId n => pin_set_state_resolved st device n state scan_now

/-- Wrapper method `JTAGCore.set_scan_mode`: the four recognised mode strings are
translated to 0 (`passive`/`sample`) or 1 (`active`/`extest`); any other
value is forwarded unchanged to `jtagcore_set_scan_mode`, whose return is
checked; then optionally a scan. -/
def set_scan_mode (st : EngineState) (device : Int) (mode : PyVal)
    (scan_now : Bool) : Except PyError Unit × EngineState × List LibCall :=
  let mode1 :=
    if pyEq mode (.pystr "passive") || pyEq mode (.pystr "sample") then PyVal.pyint 0
    else if pyEq mode (.pystr "active") || pyEq mode (.pystr "extest") then PyVal.pyint 1
    else mode
  let r := native_set_scan_mode st device mode1
  match check_return r.1 with
  | .error e => (.error e, r.2, [.setScanMode device mode1])
  | .ok _ =>
      if scan_now then addTraceS [.setScanMode device mode1] (scan r.2 false)
      else (.ok (), r.2, [.setScanMode device mode1])

/-- Wrapper method `JTAGCore.bsdl_attach`: if `os.path.exists(filepath)` is false an
`IOError` is raised before any native call; otherwise one checked
`jtagcore_loadbsdlfile` call.  `fs` models `os.path.exists`. -/
def bsdl_attach (fs : String → Bool) (st : EngineState) (filepath : String)
    (device_number : Int) : Except PyError Unit × EngineState × List LibCall :=
  if fs filepath = false then
    (.error (.ioError ("Check path: " ++ filepath)), st, [])
  else
    let r := native_loadbsdlfile st filepath device_number
    (check_return r.1, r.2, [.loadBsdlFile filepath device_number])

/-- Wrapper method `JTAGCore.bsdl_devid`: if `os.path.exists(filepath)` is false an
`IOError` is raised before any native call; otherwise one checked
`jtagcore_get_bsdl_id` call whose value is returned.  `fs` models
`os.path.exists`. -/
def bsdl_devid (fs : String → Bool) (st : EngineState) (filepath : String) :
    Except PyError Int × EngineState × List LibCall :=
  if fs filepath = false then
    (.error (.ioError ("Check path: " ++ filepath)), st, [])
  else
    let rv := native_get_bsdl_id st filepath
    (match check_return rv with
     | .error e => .error e
     | .ok _ => .ok rv,
     st, [.getBsdlId filepath])

/-- Modelled from the spec: the probe registry side of the native library.
`num_drivers` is the return of `jtagcore_get_number_of_probes_drv`,
`num_probes d` that of `jtagcore_get_number_of_probes` for driver `d`, and
`probe_name pid` the (return code, buffer content) pair produced by
`jtagcore_get_probe_name` for composite probe id `pid` — the wrapper
discards the return code. -/
structure ProbeLib where
  num_drivers : Int
  num_probes : Nat → Int
  probe_name : Nat → Int × String

/-- The name buffer content the registry reports for a probe id. -/
def probeName (lib : ProbeLib) (pid : Nat) : String :=
  (lib.probe_name pid).2

/-- Python `dict` assignment `d[k] = v` on an insertion-ordered
association list: an existing key keeps its position and gets the new
value, a new key is appended. -/
def dictInsert (k : String) (v : Nat) :
    List (String × Nat) → List (String × Nat)
  | [] => [(k, v)]
  | p :: r => if p.1 = k then (p.1, v) :: r else p :: dictInsert k v r

/-- Inner loop of `get_probe_names` for one driver: for each probe index
the composite id `(drv << 8) | i` is formed, the name queried (return
code discarded), and the dictionary entry assigned. -/
def probe_inner (lib : ProbeLib) (drv : Nat) (probes : List (String × Nat)) :
    List (String × Nat) :=
  (List.range (lib.num_probes drv).toNat).foldl
    (fun acc i => dictInsert (probeName lib ((drv <<< 8) ||| i)) ((drv <<< 8) ||| i) acc)
    probes

/-- Outer loop of `get_probe_names` over the driver indexes; the per-driver
probe count is checked through `_check_return` before the inner loop. -/
def probe_outer (lib : ProbeLib) :
    List Nat → List (String × Nat) → Except PyError (List (String × Nat))
  | [], probes => .ok probes
  | d :: rest, probes =>
      match check_return (lib.num_probes d) with
      | .error e => .error e
      | .ok _ => probe_outer lib rest (probe_inner lib d probes)

/-- Wrapper method `JTAGCore.get_probe_names`: check the driver count, then fill a Python
dict keyed by probe name with the composite probe ids. -/
def get_probe_names (lib : ProbeLib) : Except PyError (List (String × Nat)) :=
  match check_return lib.num_drivers with
  | .error e => .error e
  | .ok _ => probe_outer lib (List.range lib.num_drivers.toNat) []

/-- The (name, id) pairs `get_probe_names` assigns, in enumeration order,
before dictionary collapse: one per (driver, instance) pair. -/
def probe_entries (lib : ProbeLib) : List (String × Nat) :=
  (List.range lib.num_drivers.toNat).flatMap (fun d =>
    (List.range (lib.num_probes d).toNat).map (fun i =>
      (probeName lib ((d <<< 8) ||| i), (d <<< 8) ||| i)))

/-- Build a Python dict from a list of assignments in order. -/
def dictOfEntries (l : List (String × Nat)) : List (String × Nat) :=
  l.foldl (fun acc p => dictInsert p.1 p.2 acc) []

/-- A fixed engine state used to instantiate hypothesised theorems: open
session, one device pin table with a single pin `PA9` of all three
capabilities, all register cells 0, no injected faults. -/
def stOne : EngineState where
  session_open := true
  pin_table := fun _ => [("PA9", 7)]
  image := fun _ _ _ => 0
  transport_in := fun _ _ => 0
  scan_mode := fun _ => .pynone
  bsdl := fun _ => (0, [])
  faults := []

/-- State `stOne` with the session closed. -/
def stClosed : EngineState := { stOne with session_open := false }

/-- State `stOne` with an injected failure (`JTAG_CORE_BAD_PARAMETER`) on the
first native mutating call. -/
def stFailFirst : EngineState := { stOne with faults := [-1] }

/-- State `stOne` with an injected failure (`JTAG_CORE_IO_ERROR`) on the second
native mutating call, the first succeeding. -/
def stFailSecond : EngineState := { stOne with faults := [0, -3] }

section Helpers

/-- A negative return code always raises: `_check_return` produces some
error. -/
theorem check_return_of_neg (rv : Int) (h : rv < 0) :
    ∃ e, check_return rv = .error e := by
  unfold check_return
  rw [if_neg (by omega)]
  cases error_codes rv <;> exact ⟨_, rfl⟩

/-- The checker `_check_return` never raises `ValueError`: its errors are `IOError`
or `KeyError`. -/
theorem check_return_ne_valueError (rv : Int) (msg : String) :
    check_return rv ≠ .error (.valueError msg) := by
  unfold check_return
  split
  · simp
  · cases error_codes rv <;> simp

/-- The pair of values (`OE` write, `OUTPUT` write) selected by the
`pin_set_state` dispatch for a logical state argument, `none` for an
unrecognised argument. -/
def state_branch (s : PyVal) : Option (Int × Int) :=
  if is_high_arg s then some (1, 1)
  else if is_low_arg s then some (1, 0)
  else if is_highz_arg s then some (0, 0)
  else none

/-- A `low` argument is never a `high` argument. -/
theorem is_low_arg_not_high (s : PyVal) (h : is_low_arg s = true) :
    is_high_arg s = false := by
  cases s with
  | pybool b => cases b <;> simp_all [is_low_arg, is_high_arg, pyEq]
  | pyint n => simp_all [is_low_arg, is_high_arg, pyEq]
  | pystr t => simp_all [is_low_arg, is_high_arg, pyEq]
  | pynone => simp_all [is_low_arg, is_high_arg, pyEq]

/-- A `high-z` argument is never a `high` argument. -/
theorem is_highz_arg_not_high (s : PyVal) (h : is_highz_arg s = true) :
    is_high_arg s = false := by
  cases s with
  | pybool b => cases b <;> simp_all [is_highz_arg, is_high_arg, pyEq]
  | pyint n => simp_all [is_highz_arg, is_high_arg, pyEq]
  | pystr t => simp_all [is_highz_arg, is_high_arg, pyEq]
  | pynone => simp_all [is_highz_arg, is_high_arg, pyEq]

/-- A `high-z` argument is never a `low` argument. -/
theorem is_highz_arg_not_low (s : PyVal) (h : is_highz_arg s = true) :
    is_low_arg s = false := by
  cases s with
  | pybool b => cases b <;> simp_all [is_highz_arg, is_low_arg, pyEq]
  | pyint n => simp_all [is_highz_arg, is_low_arg, pyEq]
  | pystr t => simp_all [is_highz_arg, is_low_arg, pyEq]
  | pynone => simp_all [is_highz_arg, is_low_arg, pyEq]

/-- The dispatch of `pin_set_state_resolved` equals the shared two-write
block at the values `state_branch` selects. -/
theorem pin_set_state_resolved_eq_writes (st : EngineState) (d p : Int)
    (s : PyVal) (sn : Bool) (oev ov : Int)
    (hb : state_branch s = some (oev, ov)) :
    pin_set_state_resolved st d p s sn = pin_set_writes st d p oev ov sn := by
  unfold state_branch at hb
  unfold pin_set_state_resolved
  split_ifs at hb ⊢ <;> injection hb with h <;> injection h with ha hb2 <;>
    rw [← ha, ← hb2]

/-- With no injected fault, the two-write block issues exactly the two
register writes `OE` then `OUTPUT` with the branch's values (the optional
scan adds no register write). -/
theorem pin_set_writes_trace_nofault (st : EngineState) (d p oev ov : Int)
    (sn : Bool) (hf : st.faults = []) :
    (pin_set_writes st d p oev ov sn).2.2.filter LibCall.isSetPin =
      [.setPinState d p OE oev, .setPinState d p OUTPUT ov] := by
  cases sn <;>
    simp [pin_set_writes, native_set_pin_state, EngineState.popFault, hf,
      check_return, scan, addTraceS, List.filter, LibCall.isSetPin]

/-- If the first register write fails its check, the second write is
never issued: the trace holds exactly one register write and the
operation raises. -/
theorem pin_set_writes_first_fault (st : EngineState) (d p oev ov : Int)
    (sn : Bool) (h : st.faults.headD 0 < 0) :
    isErr (pin_set_writes st d p oev ov sn).1 = true ∧
    (pin_set_writes st d p oev ov sn).2.2.filter LibCall.isSetPin =
      [.setPinState d p OE oev] := by
  cases hfl : st.faults with
  | nil => rw [hfl] at h; simp at h
  | cons a l =>
      rw [hfl] at h
      simp only [List.headD_cons] at h
      obtain ⟨e, he⟩ := check_return_of_neg a h
      simp [pin_set_writes, native_set_pin_state, EngineState.popFault, hfl,
        h, he, isErr, List.filter, LibCall.isSetPin]

/-- If the first register write succeeds and the second fails its check,
both writes were issued, the operation raises, and the image keeps the
first write's effect with the second register untouched. -/
theorem pin_set_writes_second_fault (st : EngineState) (d p oev ov : Int)
    (sn : Bool) (h1 : 0 ≤ st.faults.headD 0) (h2 : st.faults.tail.headD 0 < 0) :
    isErr (pin_set_writes st d p oev ov sn).1 = true ∧
    (pin_set_writes st d p oev ov sn).2.2.filter LibCall.isSetPin =
      [.setPinState d p OE oev, .setPinState d p OUTPUT ov] ∧
    (pin_set_writes st d p oev ov sn).2.1.image d p OE = oev ∧
    (pin_set_writes st d p oev ov sn).2.1.image d p OUTPUT = st.image d p OUTPUT := by
  cases hfl : st.faults with
  | nil => rw [hfl] at h2; simp at h2
  | cons a l =>
      cases l with
      | nil => rw [hfl] at h2; simp at h2
      | cons b l2 =>
          rw [hfl] at h1 h2
          simp only [List.headD_cons, List.tail_cons] at h1 h2
          obtain ⟨e, he⟩ := check_return_of_neg b h2
          have hna : ¬ a < 0 := by omega
          have hc0 : check_return 0 = .ok () := rfl
          simp [pin_set_writes, native_set_pin_state, EngineState.popFault, hfl,
            hna, h2, he, hc0, isErr, List.filter, LibCall.isSetPin,
            OUTPUT, OE]

end Helpers

/-- C1: for every device, pin id and logical state argument,
`pin_set_state` decomposes into exactly two underlying register writes,
output-enable first then output: high writes `OE`=1 then `OUTPUT`=1, low
writes `OE`=1 then `OUTPUT`=0, high-impedance writes `OE`=0 then
`OUTPUT`=0 (the output value deterministically 0).  Stated over the
register-write subsequence of the issued native calls, with no injected
validation fault. -/
theorem pin_set_state_two_register_writes (st : EngineState) (d p : Int)
    (sn : Bool) (s : PyVal) (hf : st.faults = []) :
    (is_high_arg s = true →
      (pin_set_state st d (.byId p) s sn).2.2.filter LibCall.isSetPin =
        [.setPinState d p OE 1, .setPinState d p OUTPUT 1]) ∧
    (is_low_arg s = true →
      (pin_set_state st d (.byId p) s sn).2.2.filter LibCall.isSetPin =
        [.setPinState d p OE 1, .setPinState d p OUTPUT 0]) ∧
    (is_highz_arg s = true →
      (pin_set_state st d (.byId p) s sn).2.2.filter LibCall.isSetPin =
        [.setPinState d p OE 0, .setPinState d p OUTPUT 0]) := by
  refine ⟨fun h => ?_, fun h => ?_, fun h => ?_⟩
  · have hb : state_branch s = some (1, 1) := by simp [state_branch, h]
    show (pin_set_state_resolved st d p s sn).2.2.filter LibCall.isSetPin = _
    rw [pin_set_state_resolved_eq_writes st d p s sn 1 1 hb]
    exact pin_set_writes_trace_nofault st d p 1 1 sn hf
  · have hb : state_branch s = some (1, 0) := by
      simp [state_branch, h, is_low_arg_not_high s h]
    show (pin_set_state_resolved st d p s sn).2.2.filter LibCall.isSetPin = _
    rw [pin_set_state_resolved_eq_writes st d p s sn 1 0 hb]
    exact pin_set_writes_trace_nofault st d p 1 0 sn hf
  · have hb : state_branch s = some (0, 0) := by
      simp [state_branch, h, is_highz_arg_not_high s h, is_highz_arg_not_low s h]
    show (pin_set_state_resolved st d p s sn).2.2.filter LibCall.isSetPin = _
    rw [pin_set_state_resolved_eq_writes st d p s sn 0 0 hb]
    exact pin_set_writes_trace_nofault st d p 0 0 sn hf

/-- C1 witness: a concrete `high` request issues exactly the `OE`=1 then
`OUTPUT`=1 writes. -/
theorem pin_set_state_two_register_writes_witness :
    (pin_set_state stOne 1 (.byId 0) (.pystr "high") false).2.2.filter
        LibCall.isSetPin =
      [.setPinState 1 0 OE 1, .setPinState 1 0 OUTPUT 1] :=
  (pin_set_state_two_register_writes stOne 1 0 false (.pystr "high")
      rfl).1 (by decide)

/-- C4: the two register writes of `pin_set_state` are independently
validated in order: a failing first write raises with the second never
issued; a failing second write raises with both writes issued and the
image partially updated — the first write's `OE` value retained, the
`OUTPUT` register untouched (no rollback). -/
theorem pin_set_state_independent_validation (st : EngineState) (d p : Int)
    (sn : Bool) (s : PyVal) (oev ov : Int)
    (hb : state_branch s = some (oev, ov)) :
    (st.faults.headD 0 < 0 →
      isErr (pin_set_state st d (.byId p) s sn).1 = true ∧
      (pin_set_state st d (.byId p) s sn).2.2.filter LibCall.isSetPin =
        [.setPinState d p OE oev]) ∧
    (0 ≤ st.faults.headD 0 → st.faults.tail.headD 0 < 0 →
      isErr (pin_set_state st d (.byId p) s sn).1 = true ∧
      (pin_set_state st d (.byId p) s sn).2.2.filter LibCall.isSetPin =
        [.setPinState d p OE oev, .setPinState d p OUTPUT ov] ∧
      (pin_set_state st d (.byId p) s sn).2.1.image d p OE = oev ∧
      (pin_set_state st d (.byId p) s sn).2.1.image d p OUTPUT =
        st.image d p OUTPUT) := by
  have heq : pin_set_state st d (.byId p) s sn = pin_set_writes st d p oev ov sn :=
    pin_set_state_resolved_eq_writes st d p s sn oev ov hb
  rw [heq]
  exact ⟨fun h => pin_set_writes_first_fault st d p oev ov sn h,
         fun h1 h2 => pin_set_writes_second_fault st d p oev ov sn h1 h2⟩

/-- C4 witness: with the second write's validation failing on a concrete
state, `pin_set_state` raises, both writes appear in the trace, and the
image keeps the first write's `OE`=1 with `OUTPUT` unchanged. -/
theorem pin_set_state_independent_validation_witness :
    isErr (pin_set_state stFailSecond 1 (.byId 0) (.pystr "low") true).1 = true ∧
    (pin_set_state stFailSecond 1 (.byId 0) (.pystr "low") true).2.2.filter
        LibCall.isSetPin =
      [.setPinState 1 0 OE 1, .setPinState 1 0 OUTPUT 0] ∧
    (pin_set_state stFailSecond 1 (.byId 0) (.pystr "low") true).2.1.image 1 0 OE = 1 ∧
    (pin_set_state stFailSecond 1 (.byId 0) (.pystr "low") true).2.1.image 1 0 OUTPUT =
      stFailSecond.image 1 0 OUTPUT :=
  (pin_set_state_independent_validation stFailSecond 1 0 true (.pystr "low") 1 0
      (by decide)).2 (by decide) (by decide)

/-- C3: with no probe session open, `scan` raises the `NoProbe` error kind
and the engine state — in particular the in-memory register image — is
unchanged. -/
theorem scan_without_session_fails_noprobe (st : EngineState) (w : Bool)
    (h : st.session_open = false) :
    (scan st w).1 = .error (.ioError "Exception: JTAG_CORE_NO_PROBE") ∧
    (scan st w).2.1 = st := by
  have hs : scan st w =
      (check_return (-5), st, [.pushAndPopChain (if w then 1 else 0)]) := by
    unfold scan native_push_and_pop_chain
    simp [h]
  rw [hs]
  exact ⟨rfl, rfl⟩

/-- C3 witness: `scan` on the concrete closed-session state fails
`NoProbe` with the state intact. -/
theorem scan_without_session_fails_noprobe_witness :
    (scan stClosed false).1 = .error (.ioError "Exception: JTAG_CORE_NO_PROBE") ∧
    (scan stClosed false).2.1 = stClosed :=
  scan_without_session_fails_noprobe stClosed false rfl

/-- C8: when the descriptor path does not exist, `bsdl_attach` and
`bsdl_devid` both raise `IOError`, with no native call issued — in
particular the descriptor parser is never invoked. -/
theorem bsdl_missing_path_ioerror (fs : String → Bool) (st : EngineState)
    (path : String) (d : Int) (h : fs path = false) :
    bsdl_attach fs st path d = (.error (.ioError ("Check path: " ++ path)), st, []) ∧
    bsdl_devid fs st path = (.error (.ioError ("Check path: " ++ path)), st, []) := by
  constructor
  · unfold bsdl_attach
    rw [if_pos h]
  · unfold bsdl_devid
    rw [if_pos h]

/-- C8 witness: a concrete missing path fails `IOError` with an empty
native-call trace in both operations. -/
theorem bsdl_missing_path_ioerror_witness :
    bsdl_attach (fun _ => false) stOne "missing.bsd" 1 =
      (.error (.ioError "Check path: missing.bsd"), stOne, []) ∧
    bsdl_devid (fun _ => false) stOne "missing.bsd" =
      (.error (.ioError "Check path: missing.bsd"), stOne, []) :=
  bsdl_missing_path_ioerror (fun _ => false) stOne "missing.bsd" 1 rfl




/-- A registry with one driver reporting one probe whose name query
returns an IO error code alongside the buffer content. -/
def probeLibSwallow : ProbeLib where
  num_drivers := 1
  num_probes := fun _ => 1
  probe_name := fun _ => (-3, "X")

/-- C5 counterexample: `get_probe_names` discards the return value of
`jtagcore_get_probe_name`; on a registry whose name query reports a
negative (IO error) code the operation still completes normally, so a
negative native return value does not always raise. -/
theorem get_probe_name_error_swallowed_cx :
    (probeLibSwallow.probe_name 0).1 < 0 ∧
    get_probe_names probeLibSwallow = .ok [("X", 0)] :=
  ⟨by decide, rfl⟩

/-- C5 (amended): every return value passed through `_check_return` is
discriminated: non-negative values pass silently, negative values inside
the error-code table raise `IOError` naming exactly one error kind, and
negative values outside the table raise `KeyError`; however (see the
counterexample) `get_probe_names` never passes the return value of
`jtagcore_get_probe_name` to `_check_return`, so that error is
swallowed. -/
theorem check_return_error_discrimination (rv : Int) :
    (0 ≤ rv → check_return rv = .ok ()) ∧
    (rv < 0 → -10 ≤ rv →
      ∃ name, error_codes rv = some name ∧
        check_return rv = .error (.ioError ("Exception: " ++ name)) ∧
        ∀ m, error_codes rv = some m → m = name) ∧
    (rv < -10 → check_return rv = .error (.keyError rv)) := by
  refine ⟨fun h => ?_, fun h1 h2 => ?_, fun h => ?_⟩
  · unfold check_return
    rw [if_pos h]
  · interval_cases rv <;>
      exact ⟨_, rfl, rfl, fun m hm => (Option.some.inj hm).symm⟩
  · have hnone : error_codes rv = none := by
      unfold error_codes
      iterate 11 rw [if_neg (by omega)]
    unfold check_return
    rw [if_neg (by omega), hnone]

/-- C5 witness: the discrimination at the concrete codes 0, -5 and
-11. -/
theorem check_return_error_discrimination_witness :
    check_return 0 = .ok () ∧
    check_return (-5) = .error (.ioError "Exception: JTAG_CORE_NO_PROBE") ∧
    check_return (-11) = .error (.keyError (-11)) := by
  refine ⟨(check_return_error_discrimination 0).1 (by decide), ?_,
          (check_return_error_discrimination (-11)).2.2 (by decide)⟩
  obtain ⟨nm, hnm, hcr, hun⟩ :=
    (check_return_error_discrimination (-5)).2.1 (by decide) (by decide)
  have he : "JTAG_CORE_NO_PROBE" = nm := hun "JTAG_CORE_NO_PROBE" rfl
  rw [← he] at hcr
  exact hcr

/-- C6 counterexample: with the pin given by name and an unrecognised
direction, `pin_get_state` raises the `ValueError` (the `BadParameter`
analogue) but only after issuing the `jtagcore_get_pin_id` native call —
the trace is not empty, so the failure is not free of library calls. -/
theorem pin_get_state_name_lookup_cx :
    (pin_get_state stOne 0 (.byName "PA9") (.pystr "bogus")).1 =
      .error (.valueError "Invalid pintype") ∧
    (pin_get_state stOne 0 (.byName "PA9") (.pystr "bogus")).2 =
      [.getPinId 0 "PA9"] ∧
    (pin_get_state stOne 0 (.byName "PA9") (.pystr "bogus")).2 ≠ [] :=
  ⟨rfl, rfl, by decide⟩

/-- For each recognised direction string (`input`, `output`, `oe`) the
resolved body of `pin_get_state` performs one `jtagcore_get_pin_state`
read of that direction's register class and returns the in-memory
register image value. -/
theorem pin_get_state_resolved_reads (st : EngineState) (d p : Int)
    (t : Nat) (dir : String)
    (hsel : (dir = "input" ∧ t = INPUT) ∨ (dir = "output" ∧ t = OUTPUT) ∨
            (dir = "oe" ∧ t = OE))
    (hp : 0 ≤ p) (hlt : p.toNat < (st.pin_table d).length)
    (him : 0 ≤ st.image d p t) :
    pin_get_state_resolved st d p (.pystr dir) =
      (.ok (st.image d p t), [.getPinState d p t]) := by
  have hnat : native_get_pin_state st d p t = st.image d p t := by
    unfold native_get_pin_state
    rw [if_pos ⟨hp, hlt⟩]
  have hok : check_return (st.image d p t) = .ok () := by
    unfold check_return
    rw [if_pos him]
  rcases hsel with ⟨rfl, rfl⟩ | ⟨rfl, rfl⟩ | ⟨rfl, rfl⟩ <;>
    simp [pin_get_state_resolved, pyEq, hnat, hok]

/-- C6 (amended): an unrecognised direction argument makes
`pin_get_state` raise `ValueError` before any pin-state read is issued —
with a numeric pin id no native call at all is made, while a pin given by
name incurs exactly the preceding name-lookup call; for each recognised
direction (`input`, `output`, `oe`) the wrapper reads the current
in-memory register image of that direction's register class, whether the
pin is given by id or by name. -/
theorem pin_get_state_direction_dispatch (st : EngineState) (d p : Int)
    (s : String) (pt : PyVal) :
    (pyEq pt (.pystr "input") = false → pyEq pt (.pystr "output") = false →
     pyEq pt (.pystr "oe") = false →
      pin_get_state st d (.byId p) pt =
        (.error (.valueError "Invalid pintype"), []) ∧
      (0 ≤ native_get_pin_id st d s →
        pin_get_state st d (.byName s) pt =
          (.error (.valueError "Invalid pintype"), [.getPinId d s]))) ∧
    (0 ≤ p → p.toNat < (st.pin_table d).length →
      (0 ≤ st.image d p INPUT →
        pin_get_state st d (.byId p) (.pystr "input") =
          (.ok (st.image d p INPUT), [.getPinState d p INPUT])) ∧
      (0 ≤ st.image d p OUTPUT →
        pin_get_state st d (.byId p) (.pystr "output") =
          (.ok (st.image d p OUTPUT), [.getPinState d p OUTPUT])) ∧
      (0 ≤ st.image d p OE →
        pin_get_state st d (.byId p) (.pystr "oe") =
          (.ok (st.image d p OE), [.getPinState d p OE]))) ∧
    (0 ≤ native_get_pin_id st d s →
      (native_get_pin_id st d s).toNat < (st.pin_table d).length →
      (0 ≤ st.image d (native_get_pin_id st d s) INPUT →
        pin_get_state st d (.byName s) (.pystr "input") =
          (.ok (st.image d (native_get_pin_id st d s) INPUT),
           [.getPinId d s,
            .getPinState d (native_get_pin_id st d s) INPUT])) ∧
      (0 ≤ st.image d (native_get_pin_id st d s) OUTPUT →
        pin_get_state st d (.byName s) (.pystr "output") =
          (.ok (st.image d (native_get_pin_id st d s) OUTPUT),
           [.getPinId d s,
            .getPinState d (native_get_pin_id st d s) OUTPUT])) ∧
      (0 ≤ st.image d (native_get_pin_id st d s) OE →
        pin_get_state st d (.byName s) (.pystr "oe") =
          (.ok (st.image d (native_get_pin_id st d s) OE),
           [.getPinId d s,
            .getPinState d (native_get_pin_id st d s) OE]))) := by
  refine ⟨?_, ?_, ?_⟩
  · intro h1 h2 h3
    have hres : pin_get_state_resolved st d p pt =
        (.error (.valueError "Invalid pintype"), []) := by
      unfold pin_get_state_resolved
      simp [h1, h2, h3]
    constructor
    · exact hres
    · intro hid
      have hok : check_return (native_get_pin_id st d s) = .ok () := by
        unfold check_return
        rw [if_pos hid]
      have hpid : pin_get_id st d s =
          (.ok (native_get_pin_id st d s), [.getPinId d s]) := by
        simp [pin_get_id, hok]
      have hres2 : pin_get_state_resolved st d (native_get_pin_id st d s) pt =
          (.error (.valueError "Invalid pintype"), []) := by
        unfold pin_get_state_resolved
        simp [h1, h2, h3]
      simp [pin_get_state, hpid, hres2, addTrace]
  · intro hp hlt
    refine ⟨fun him => ?_, fun him => ?_, fun him => ?_⟩
    · exact pin_get_state_resolved_reads st d p INPUT "input"
        (Or.inl ⟨rfl, rfl⟩) hp hlt him
    · exact pin_get_state_resolved_reads st d p OUTPUT "output"
        (Or.inr (Or.inl ⟨rfl, rfl⟩)) hp hlt him
    · exact pin_get_state_resolved_reads st d p OE "oe"
        (Or.inr (Or.inr ⟨rfl, rfl⟩)) hp hlt him
  · intro hid hlt
    have hok : check_return (native_get_pin_id st d s) = .ok () := by
      unfold check_return
      rw [if_pos hid]
    have hpid : pin_get_id st d s =
        (.ok (native_get_pin_id st d s), [.getPinId d s]) := by
      simp [pin_get_id, hok]
    refine ⟨fun him => ?_, fun him => ?_, fun him => ?_⟩
    · have hr := pin_get_state_resolved_reads st d (native_get_pin_id st d s)
        INPUT "input" (Or.inl ⟨rfl, rfl⟩) hid hlt him
      simp [pin_get_state, hpid, addTrace, hr]
    · have hr := pin_get_state_resolved_reads st d (native_get_pin_id st d s)
        OUTPUT "output" (Or.inr (Or.inl ⟨rfl, rfl⟩)) hid hlt him
      simp [pin_get_state, hpid, addTrace, hr]
    · have hr := pin_get_state_resolved_reads st d (native_get_pin_id st d s)
        OE "oe" (Or.inr (Or.inr ⟨rfl, rfl⟩)) hid hlt him
      simp [pin_get_state, hpid, addTrace, hr]

/-- C6 witness: on a concrete state the instantiated dispatch — an
integer direction argument raises `ValueError` with an empty trace,
directions `input`, `output` and `oe` read the image by pin id, and
direction `oe` also reads it with the pin given by name after the
name-lookup call. -/
theorem pin_get_state_direction_dispatch_witness :
    pin_get_state stOne 0 (.byId 0) (.pyint 1) =
      (.error (.valueError "Invalid pintype"), []) ∧
    pin_get_state stOne 0 (.byId 0) (.pystr "input") =
      (.ok (stOne.image 0 0 INPUT), [.getPinState 0 0 INPUT]) ∧
    pin_get_state stOne 0 (.byId 0) (.pystr "output") =
      (.ok (stOne.image 0 0 OUTPUT), [.getPinState 0 0 OUTPUT]) ∧
    pin_get_state stOne 0 (.byId 0) (.pystr "oe") =
      (.ok (stOne.image 0 0 OE), [.getPinState 0 0 OE]) ∧
    pin_get_state stOne 0 (.byName "PA9") (.pystr "oe") =
      (.ok (stOne.image 0 0 OE), [.getPinId 0 "PA9", .getPinState 0 0 OE]) :=
  ⟨((pin_get_state_direction_dispatch stOne 0 0 "PA9" (.pyint 1)).1
      (by decide) (by decide) (by decide)).1,
   ((pin_get_state_direction_dispatch stOne 0 0 "PA9" (.pystr "input")).2.1
      (by decide) (by decide)).1 (by decide),
   ((pin_get_state_direction_dispatch stOne 0 0 "PA9" (.pystr "output")).2.1
      (by decide) (by decide)).2.1 (by decide),
   ((pin_get_state_direction_dispatch stOne 0 0 "PA9" (.pystr "oe")).2.1
      (by decide) (by decide)).2.2 (by decide),
   ((pin_get_state_direction_dispatch stOne 0 0 "PA9" (.pystr "oe")).2.2
      (by decide) (by decide)).2.2 (by decide)⟩

/-- The index found by `pin_index` is a valid position and the entry
there bears the looked-up name. -/
theorem pin_index_get? (name : String) (l : List (String × Nat)) (i : Nat)
    (h : pin_index name l = some i) :
    ∃ caps, l.get? i = some (name, caps) := by
  induction l generalizing i with
  | nil => simp [pin_index] at h
  | cons hd tl ih =>
      unfold pin_index at h
      by_cases hp : hd.1 = name
      · rw [if_pos hp] at h
        have h0 : 0 = i := Option.some.inj h
        refine ⟨hd.2, ?_⟩
        rw [← h0, List.get?_cons_zero, ← hp]
      · rw [if_neg hp] at h
        cases hj : pin_index name tl with
        | none => rw [hj] at h; simp at h
        | some j =>
            rw [hj] at h
            have hji : j + 1 = i := Option.some.inj h
            obtain ⟨caps, hc⟩ := ih j hj
            refine ⟨caps, ?_⟩
            rw [← hji]
            simpa using hc

/-- C7: for a pin name known to the attached descriptor, name → id →
name is stable: `pin_get_id` of the name succeeds with id `i`,
`pin_get_properties` of `i` succeeds and reports exactly the name the
descriptor holds at `i`, and `pin_get_id` of that reported name yields
the same id `i` again. -/
theorem pin_name_id_roundtrip (st : EngineState) (d : Int) (name : String)
    (h : 0 ≤ native_get_pin_id st d name) :
    (pin_get_id st d name).1 = .ok (native_get_pin_id st d name) ∧
    Except.map Prod.fst (pin_get_properties st d (native_get_pin_id st d name)).1 =
      .ok ((native_get_pin_properties st d (native_get_pin_id st d name)).2.1) ∧
    (pin_get_id st d
        ((native_get_pin_properties st d (native_get_pin_id st d name)).2.1)).1 =
      .ok (native_get_pin_id st d name) := by
  cases hidx : pin_index name (st.pin_table d) with
  | none =>
      unfold native_get_pin_id at h
      rw [hidx] at h
      simp at h
  | some i =>
      have hnat : native_get_pin_id st d name = (i : Int) := by
        unfold native_get_pin_id
        rw [hidx]
      obtain ⟨caps, hget⟩ := pin_index_get? name _ i hidx
      have hprops : native_get_pin_properties st d (native_get_pin_id st d name) =
          (0, name, caps) := by
        rw [hnat]
        unfold native_get_pin_properties
        rw [if_pos (by omega)]
        rw [show ((i : Int)).toNat = i from Int.toNat_natCast i, hget]
      have hidok : check_return (native_get_pin_id st d name) = .ok () := by
        unfold check_return
        rw [if_pos h]
      refine ⟨?_, ?_, ?_⟩
      · simp [pin_get_id, hidok]
      · unfold pin_get_properties
        rw [hprops]
        rfl
      · simp [hprops, pin_get_id, hidok]

/-- C7 witness: the concrete round trip for pin `PA9` of `stOne`. -/
theorem pin_name_id_roundtrip_witness :
    (pin_get_id stOne 0 "PA9").1 = .ok (native_get_pin_id stOne 0 "PA9") ∧
    Except.map Prod.fst (pin_get_properties stOne 0 (native_get_pin_id stOne 0 "PA9")).1 =
      .ok ((native_get_pin_properties stOne 0 (native_get_pin_id stOne 0 "PA9")).2.1) ∧
    (pin_get_id stOne 0
        ((native_get_pin_properties stOne 0 (native_get_pin_id stOne 0 "PA9")).2.1)).1 =
      .ok (native_get_pin_id stOne 0 "PA9") :=
  pin_name_id_roundtrip stOne 0 "PA9" (by decide)

/-- Loop `probe_outer` under per-driver success equals a fold of dictionary
assignments over the flattened (name, composite id) enumeration. -/
theorem probe_outer_ok (lib : ProbeLib) :
    ∀ (ds : List Nat), (∀ d ∈ ds, 0 ≤ lib.num_probes d) →
      ∀ (acc : List (String × Nat)),
      probe_outer lib ds acc =
        .ok ((ds.flatMap (fun d => (List.range (lib.num_probes d).toNat).map
              (fun i => (probeName lib ((d <<< 8) ||| i), (d <<< 8) ||| i)))).foldl
            (fun a q => dictInsert q.1 q.2 a) acc) := by
  intro ds
  induction ds with
  | nil => intro _ acc; rfl
  | cons d rest ih =>
      intro hp acc
      have hok : check_return (lib.num_probes d) = .ok () := by
        unfold check_return
        rw [if_pos (hp d (by simp))]
      unfold probe_outer
      rw [hok, ih (fun x hx => hp x (by simp [hx]))]
      rw [List.flatMap_cons, List.foldl_append]
      unfold probe_inner
      rw [List.foldl_map]

/-- Operation `get_probe_names` under success returns the Python dict built from
the enumeration entries in order. -/
theorem get_probe_names_ok (lib : ProbeLib) (hd : 0 ≤ lib.num_drivers)
    (hp : ∀ d ∈ List.range lib.num_drivers.toNat, 0 ≤ lib.num_probes d) :
    get_probe_names lib = .ok (dictOfEntries (probe_entries lib)) := by
  have hok : check_return lib.num_drivers = .ok () := by
    unfold check_return
    rw [if_pos hd]
  unfold get_probe_names
  rw [hok, probe_outer_ok lib (List.range lib.num_drivers.toNat) hp []]
  rfl

/-- With one driver and two instances the enumeration entries are exactly
the composite ids 0 and 1 with their queried names. -/
theorem probe_entries_one_driver_two (lib : ProbeLib)
    (h1 : lib.num_drivers = 1) (h2 : lib.num_probes 0 = 2) :
    probe_entries lib = [(probeName lib 0, 0), (probeName lib 1, 1)] := by
  unfold probe_entries
  rw [h1]
  rw [show ((1 : Int)).toNat = 1 from rfl,
      show (List.range 1 : List Nat) = [0] from rfl,
      List.flatMap_cons, List.flatMap_nil, List.append_nil, h2]
  rfl

/-- C2: the composite probe id assigned to instance `i` of driver `d` is
`(d <<< 8) ||| i`: `get_probe_names` returns the dictionary built from
the enumeration entries, every in-range (driver, instance) pair
contributes exactly that composite id, and one driver with two instances
yields ids 0 (0x0000) and 1 (0x0001). -/
theorem probe_id_composition (lib : ProbeLib)
    (hd : 0 ≤ lib.num_drivers) (hp : ∀ d, 0 ≤ lib.num_probes d) :
    get_probe_names lib = .ok (dictOfEntries (probe_entries lib)) ∧
    (∀ d i, d < lib.num_drivers.toNat → i < (lib.num_probes d).toNat →
      (probeName lib ((d <<< 8) ||| i), (d <<< 8) ||| i) ∈ probe_entries lib) ∧
    (lib.num_drivers = 1 → lib.num_probes 0 = 2 →
      probe_entries lib = [(probeName lib 0, 0), (probeName lib 1, 1)]) := by
  refine ⟨get_probe_names_ok lib hd (fun d _ => hp d), ?_, ?_⟩
  · intro d i hdlt hilt
    unfold probe_entries
    rw [List.mem_flatMap]
    exact ⟨d, List.mem_range.mpr hdlt,
           List.mem_map.mpr ⟨i, List.mem_range.mpr hilt, rfl⟩⟩
  · exact probe_entries_one_driver_two lib

/-- A registry with one driver and two probe instances carrying distinct
names. -/
def probeLibTwo : ProbeLib where
  num_drivers := 1
  num_probes := fun _ => 2
  probe_name := fun pid => (0, if pid = 0 then "probe-A" else "probe-B")

/-- C2 witness: on the concrete two-instance registry the enumeration
entries carry exactly the composite ids 0x0000 and 0x0001. -/
theorem probe_id_composition_witness :
    probe_entries probeLibTwo = [("probe-A", 0), ("probe-B", 1)] :=
  (probe_id_composition probeLibTwo (by decide)
      (fun _ => (by decide : (0 : Int) ≤ 2))).2.2 rfl rfl

/-- C9: the probe map is keyed by name, so when the two enumerated
instances of a single driver report the same name only one entry
survives, holding the id (1) of the later-enumerated instance, and the
returned map is strictly smaller than the number of enumerated probes. -/
theorem duplicate_probe_names_last_wins (lib : ProbeLib)
    (h1 : lib.num_drivers = 1) (h2 : lib.num_probes 0 = 2)
    (h3 : probeName lib 0 = probeName lib 1) :
    get_probe_names lib = .ok [(probeName lib 1, 1)] ∧
    ([(probeName lib 1, 1)] : List (String × Nat)).length <
      (lib.num_probes 0).toNat := by
  constructor
  · have hg := get_probe_names_ok lib (by rw [h1]; decide)
      (by
        intro x hx
        rw [h1] at hx
        rw [show ((1 : Int)).toNat = 1 from rfl,
            show (List.range 1 : List Nat) = [0] from rfl] at hx
        rw [List.mem_singleton] at hx
        rw [hx, h2]
        exact (by decide : (0 : Int) ≤ 2))
    rw [hg, probe_entries_one_driver_two lib h1 h2]
    simp [dictOfEntries, dictInsert, h3]
  · rw [h2]
    exact (by decide : (1 : Nat) < Int.toNat 2)

/-- A registry whose two probe instances report the same name. -/
def probeLibDup : ProbeLib where
  num_drivers := 1
  num_probes := fun _ => 2
  probe_name := fun _ => (0, "USB JLINK ARM")

/-- C9 witness: with both instances named identically, the returned map
has the single entry with id 1. -/
theorem duplicate_probe_names_last_wins_witness :
    get_probe_names probeLibDup = .ok [("USB JLINK ARM", 1)] :=
  (duplicate_probe_names_last_wins probeLibDup rfl rfl rfl).1

/-- C10: a mode argument that is none of the four recognised strings is
not rejected locally by `set_scan_mode`: it is forwarded unchanged as the
first (and only mode-set) native call, and the wrapper itself never
raises `ValueError` — any failure comes from the checked native
return. -/
theorem set_scan_mode_forwards_unrecognized (st : EngineState) (d : Int)
    (mode : PyVal) (sn : Bool)
    (h1 : (pyEq mode (.pystr "passive") || pyEq mode (.pystr "sample")) = false)
    (h2 : (pyEq mode (.pystr "active") || pyEq mode (.pystr "extest")) = false) :
    (set_scan_mode st d mode sn).2.2.head? = some (.setScanMode d mode) ∧
    ∀ msg, (set_scan_mode st d mode sn).1 ≠ .error (.valueError msg) := by
  have hm : set_scan_mode st d mode sn =
      (match check_return (native_set_scan_mode st d mode).1 with
       | .error e => (.error e, (native_set_scan_mode st d mode).2,
                      [.setScanMode d mode])
       | .ok _ =>
          if sn then
            addTraceS [.setScanMode d mode]
              (scan (native_set_scan_mode st d mode).2 false)
          else (.ok (), (native_set_scan_mode st d mode).2,
                [.setScanMode d mode])) := by
    unfold set_scan_mode
    simp [h1, h2]
  rw [hm]
  cases hcc : check_return (native_set_scan_mode st d mode).1 with
  | error e =>
      refine ⟨rfl, fun msg heq => ?_⟩
      injection heq with he
      rw [he] at hcc
      exact check_return_ne_valueError _ msg hcc
  | ok u =>
      cases sn with
      | false => exact ⟨rfl, fun msg h => Except.noConfusion h⟩
      | true =>
          refine ⟨rfl, fun msg h => ?_⟩
          have h4 : check_return
              (native_push_and_pop_chain (native_set_scan_mode st d mode).2 0).1 =
              .error (.valueError msg) := h
          exact check_return_ne_valueError _ msg h4

/-- C10 witness: the unrecognised integer mode 5 is forwarded unchanged
to the native mode-set call. -/
theorem set_scan_mode_forwards_unrecognized_witness :
    (set_scan_mode stOne 1 (.pyint 5) false).2.2.head? =
      some (.setScanMode 1 (.pyint 5)) :=
  (set_scan_mode_forwards_unrecognized stOne 1 (.pyint 5) false
      (by decide) (by decide)).1

end JTAGCore
